import Mathlib

/-!
Verification of the `AlertDialog` component family
(`src/packages/react/alert-dialog/src/AlertDialog.tsx`) against its
natural-language specification.

The component is a thin accessibility layer over an external dialog
primitive.  We embed the parts of the source that the claims are about:

* the per-instance identity context (`titleId` / `descriptionId`);
* the attribute computation of `AlertDialogContent` (role and the three
  `aria-*` attributes, including the JSX spread-override order);
* the composed `onOpenAutoFocus` handler (caller handler first, then the
  cancel-focus default unless default was prevented);
* the conditional mounting of `AccessibilityDevWarnings` and the warning
  effect it runs;
* the `AlertDialogTitle` / `AlertDialogDescription` leaves.

JavaScript string props are `Option String` (`none` = `undefined`); JS
truthiness (where `""` is falsy) and the `||` operator are modelled
explicitly.  External collaborators that live outside `src/`
(`composeEventHandlers`, `useId`) are modelled from the spec and marked
as such in their doc comments.
-/

/-- JS truthiness of an optional string prop: `undefined` and the empty
string are falsy, every other string is truthy. -/
def strTruthy : Option String → Bool
  | none => false
  | some s => !(s == "")

/-- JS `x || y` for an optional string `x` and a string `y`: the value of
`x` when `x` is truthy, otherwise `y`. -/
def jsOrStr (x : Option String) (y : String) : String :=
  match x with
  | some s => if s == "" then y else s
  | none => y

/-- JS `x ?? y` (nullish coalescing) for an optional string `x` and a
string `y`: the value of `x` whenever `x` is present (even `""`),
otherwise `y`.  This follows the spec formulas, which use `??`; the
source uses `||`. -/
def jsNullish (x : Option String) (y : String) : String :=
  match x with
  | some s => s
  | none => y

/-- The scoped identity context published by the root composer
(`AlertDialogContextValue` in the source). -/
structure AlertDialogContextValue where
  descriptionId : String
  titleId : String
deriving DecidableEq

/-- The `onOpenAutoFocus` event: the only observable the embedded handlers
touch is its `defaultPrevented` flag. -/
structure OpenAutoFocusEvent where
  defaultPrevented : Bool
deriving DecidableEq

/-- One imperative `element.focus(...)` call recorded by a handler:
the element handle focused and whether `preventScroll` was requested. -/
structure FocusCall where
  target : String
  preventScroll : Bool
deriving DecidableEq

/-- State threaded through an `onOpenAutoFocus` handler: the event (with
its `defaultPrevented` flag) and the list of focus calls performed so
far. -/
structure AutoFocusState where
  event : OpenAutoFocusEvent
  focusCalls : List FocusCall
deriving DecidableEq

/-- An `onOpenAutoFocus` handler, as a transformer of the observable
state. -/
def AutoFocusHandler : Type := AutoFocusState → AutoFocusState

/-- The props of `DialogPrimitive.Content` that remain in
`dialogContentProps` after `AlertDialogContent` destructures the three
`aria-*` props and `children` out: a possible `role` override, a possible
caller-supplied `onOpenAutoFocus`, and arbitrary further attributes. -/
structure DialogContentRestProps where
  role : Option String
  onOpenAutoFocus : Option AutoFocusHandler
  other : List (String × String)

/-- The props accepted by `AlertDialogContent`. -/
structure AlertDialogContentProps where
  ariaLabel : Option String
  ariaLabelledBy : Option String
  ariaDescribedBy : Option String
  rest : DialogContentRestProps

/-- The attributes of the rendered content element. -/
structure ContentAttrs where
  role : String
  ariaLabel : Option String
  ariaLabelledBy : Option String
  ariaDescribedBy : Option String
  other : List (String × String)

/-- The attribute computation of `AlertDialogContent` (source lines
71–80).  JSX semantics: `{...dialogContentProps}` is spread after the
explicitly written attributes, so a key present in the rest props
overrides them — in particular `role`, which is not destructured out.
The three `aria-*` props are destructured out of the rest props, so the
explicit computations for them are final:

* `aria-describedby = ariaDescribedBy || descriptionId`;
* `aria-labelledby = ariaLabel ? undefined : (ariaLabelledBy || titleId)`;
* `aria-label = ariaLabel || undefined`. -/
def AlertDialogContent.attrs (ctx : AlertDialogContextValue)
    (props : AlertDialogContentProps) : ContentAttrs :=
  { role :=
      match props.rest.role with
      | some r => r
      | none => "alertdialog"
    ariaDescribedBy := some (jsOrStr props.ariaDescribedBy ctx.descriptionId)
    ariaLabelledBy :=
      if strTruthy props.ariaLabel then none
      else some (jsOrStr props.ariaLabelledBy ctx.titleId)
    ariaLabel := if strTruthy props.ariaLabel then props.ariaLabel else none
    other := props.rest.other }

/-- Rest props with nothing supplied: no `role` override, no caller
`onOpenAutoFocus`, no further attributes. -/
def emptyRest : DialogContentRestProps :=
  { role := none, onOpenAutoFocus := none, other := [] }

/-- Identity context used for concrete evaluations. -/
def ctx0 : AlertDialogContextValue :=
  { descriptionId := "radix-0", titleId := "radix-1" }

/-- C1 — the claim states the attribute formulas with `??` (nullish
coalescing), under which an empty-string override is kept.  The source
uses `||`, under which `""` is falsy: rendering with
`aria-describedby=""` yields the generated `descriptionId`
(`some "radix-0"`), not the empty-string override `""` that the `??`
formula `ariaDescribedBy ?? descriptionId` requires. -/
theorem C1_counterexample :
    (AlertDialogContent.attrs ctx0
        { ariaLabel := none, ariaLabelledBy := none,
          ariaDescribedBy := some "", rest := emptyRest }).ariaDescribedBy
      = some "radix-0" ∧
    jsNullish (some "") "radix-0" = "" := by
  exact ⟨rfl, rfl⟩

/-- C1 (amended) — for every render of `AlertDialogContent` the rendered
attributes follow the spec formulas with `||` (JS falsy coalescing) in
place of `??`: `aria-labelledby = ariaLabel ? undefined :
(ariaLabelledBy || titleId)`, `aria-label = ariaLabel || undefined`,
`aria-describedby = ariaDescribedBy || descriptionId`.  In particular an
empty-string override is treated as absent and replaced by the generated
id, while a non-empty override is kept. -/
theorem C1_amended_attrs_follow_falsy_formulas
    (ctx : AlertDialogContextValue) (props : AlertDialogContentProps) :
    (AlertDialogContent.attrs ctx props).ariaLabelledBy
        = (if strTruthy props.ariaLabel then none
           else some (jsOrStr props.ariaLabelledBy ctx.titleId)) ∧
    (AlertDialogContent.attrs ctx props).ariaLabel
        = (if strTruthy props.ariaLabel then props.ariaLabel else none) ∧
    (AlertDialogContent.attrs ctx props).ariaDescribedBy
        = some (jsOrStr props.ariaDescribedBy ctx.descriptionId) ∧
    ((props.ariaDescribedBy = none ∨ props.ariaDescribedBy = some "") →
      (AlertDialogContent.attrs ctx props).ariaDescribedBy
        = some ctx.descriptionId) ∧
    (∀ s : String, props.ariaDescribedBy = some s → s ≠ "" →
      (AlertDialogContent.attrs ctx props).ariaDescribedBy = some s) := by
  refine ⟨rfl, rfl, rfl, ?_, ?_⟩
  · rintro (h | h) <;>
      simp [AlertDialogContent.attrs, jsOrStr, h]
  · intro s hs hne
    simp [AlertDialogContent.attrs, jsOrStr, hs, hne]

/-- C1 (amended) witness — at `aria-describedby=""` with generated id
`"radix-0"`, the rendered `aria-describedby` is the generated id. -/
theorem C1_amended_witness :
    (AlertDialogContent.attrs ctx0
        { ariaLabel := none, ariaLabelledBy := none,
          ariaDescribedBy := some "", rest := emptyRest }).ariaDescribedBy
      = some "radix-0" :=
  (C1_amended_attrs_follow_falsy_formulas ctx0
      { ariaLabel := none, ariaLabelledBy := none,
        ariaDescribedBy := some "", rest := emptyRest }).2.2.2.1
    (Or.inr rfl)

/-- C5 — for every render of `AlertDialogContent`, under any combination
of the three `aria-*` inputs (including empty strings) and any rest
props, the rendered element never carries both `aria-label` and
`aria-labelledby`: a truthy explicit label forces `aria-labelledby` to
`undefined`, and otherwise `aria-label` is `undefined`. -/
theorem C5_label_and_labelledby_never_both_set
    (ctx : AlertDialogContextValue) (props : AlertDialogContentProps) :
    (AlertDialogContent.attrs ctx props).ariaLabel = none ∨
    (AlertDialogContent.attrs ctx props).ariaLabelledBy = none := by
  by_cases h : strTruthy props.ariaLabel
  · right; simp [AlertDialogContent.attrs, h]
  · left; simp [AlertDialogContent.attrs, h]

/-- C7 — the claim says the rendered content element carries
`role="alertdialog"` regardless of the remaining props forwarded by the
consumer.  It does not: `role="alertdialog"` is written before the
`{...dialogContentProps}` spread, so a consumer-supplied `role` (which is
not destructured out) overrides it.  With `role="dialog"` in the rest
props the rendered role is `"dialog"`. -/
theorem C7_counterexample :
    (AlertDialogContent.attrs ctx0
        { ariaLabel := none, ariaLabelledBy := none, ariaDescribedBy := none,
          rest := { role := some "dialog", onOpenAutoFocus := none,
                    other := [] } }).role
      = "dialog" := by
  exact rfl

/-- C7 (amended) — the rendered content element carries
`role="alertdialog"` whenever the consumer does not supply a `role` prop;
a consumer-supplied `role` overrides it (the spread is written after the
explicit `role` attribute). -/
theorem C7_amended_role_alertdialog_by_default
    (ctx : AlertDialogContextValue) (props : AlertDialogContentProps)
    (hrole : props.rest.role = none) :
    (AlertDialogContent.attrs ctx props).role = "alertdialog" := by
  simp [AlertDialogContent.attrs, hrole]

/-- C7 (amended) witness — with no consumer `role` prop the rendered role
is `"alertdialog"`. -/
theorem C7_amended_witness :
    (AlertDialogContent.attrs ctx0
        { ariaLabel := none, ariaLabelledBy := none, ariaDescribedBy := none,
          rest := emptyRest }).role
      = "alertdialog" :=
  C7_amended_role_alertdialog_by_default ctx0
    { ariaLabel := none, ariaLabelledBy := none, ariaDescribedBy := none,
      rest := emptyRest } rfl

/-- Modelled from the spec: the event-handler composition utility
(`composeEventHandlers` from the external `@radix-ui/primitive` package,
which is not under `src/`).  Per the spec it "invokes the user handler
first, checks a prevented-flag on the event object, and only then invokes
the default handler if not prevented". -/
def composeEventHandlers (original : Option AutoFocusHandler)
    (ours : AutoFocusHandler) : AutoFocusHandler := fun s =>
  let s1 := match original with
    | some h => h s
    | none => s
  if s1.event.defaultPrevented then s1 else ours s1

/-- The default pre-autofocus behavior of `AlertDialogContent` (source
lines 82–85): call `event.preventDefault()`, then
`cancelRef.current?.focus({ preventScroll: true })` — the focus call
happens only when the cancel slot holds an element, but `preventDefault`
is called unconditionally. -/
def cancelAutoFocusHandler (cancelCurrent : Option String) :
    AutoFocusHandler := fun s =>
  let s1 : AutoFocusState := { s with event := { defaultPrevented := true } }
  match cancelCurrent with
  | some el => { s1 with focusCalls := s1.focusCalls ++ [⟨el, true⟩] }
  | none => s1

/-- The `onOpenAutoFocus` handler `AlertDialogContent` installs on the
primitive's content region: the caller-supplied handler (from the rest
props) composed with the default cancel-focus behavior.  `cancelCurrent`
is the value of `cancelRef.current` at the time the event fires. -/
def AlertDialogContent.openAutoFocus (props : AlertDialogContentProps)
    (cancelCurrent : Option String) : AutoFocusHandler :=
  composeEventHandlers props.rest.onOpenAutoFocus
    (cancelAutoFocusHandler cancelCurrent)

/-- Runs the caller-supplied handler of the rest props on a state (the
identity when none is supplied). -/
def runUserHandler (props : AlertDialogContentProps)
    (s : AutoFocusState) : AutoFocusState :=
  match props.rest.onOpenAutoFocus with
  | some h => h s
  | none => s

/-- The installed handler in terms of `runUserHandler`: caller handler
first, then the default cancel-focus behavior unless the caller handler
left the event prevented. -/
theorem openAutoFocus_eq (props : AlertDialogContentProps)
    (c : Option String) (s : AutoFocusState) :
    AlertDialogContent.openAutoFocus props c s
      = if (runUserHandler props s).event.defaultPrevented
          then runUserHandler props s
          else cancelAutoFocusHandler c (runUserHandler props s) := by
  cases hu : props.rest.onOpenAutoFocus <;>
    simp [AlertDialogContent.openAutoFocus, composeEventHandlers,
      runUserHandler, hu]

/-- C2 — on an open transition with a Cancel control registered, the
installed pre-autofocus handler first runs the caller-supplied handler
(if any); if that handler did not call `preventDefault`, the default then
prevents the primitive's default focus and appends one focus call to the
registered cancel element with `preventScroll := true`; if the caller
handler did call `preventDefault`, the default cancel-focus behavior is
entirely suppressed and the state is exactly what the caller handler
left. -/
theorem C2_composed_autofocus_focuses_cancel
    (props : AlertDialogContentProps) (el : String) (s s1 : AutoFocusState)
    (huser : runUserHandler props s = s1) :
    (s1.event.defaultPrevented = false →
      AlertDialogContent.openAutoFocus props (some el) s
        = { event := { defaultPrevented := true },
            focusCalls := s1.focusCalls ++ [⟨el, true⟩] }) ∧
    (s1.event.defaultPrevented = true →
      AlertDialogContent.openAutoFocus props (some el) s = s1) := by
  subst huser
  rw [openAutoFocus_eq]
  constructor <;> intro h <;> simp [h, cancelAutoFocusHandler]

/-- C2 witness — with no caller handler, a registered cancel element
`"cancel-button"` and an unprevented event, the composed handler prevents
default and focuses the cancel element with `preventScroll`. -/
theorem C2_witness :
    AlertDialogContent.openAutoFocus
        { ariaLabel := none, ariaLabelledBy := none, ariaDescribedBy := none,
          rest := emptyRest }
        (some "cancel-button") ⟨⟨false⟩, []⟩
      = ⟨⟨true⟩, [⟨"cancel-button", true⟩]⟩ :=
  (C2_composed_autofocus_focuses_cancel
      { ariaLabel := none, ariaLabelledBy := none, ariaDescribedBy := none,
        rest := emptyRest }
      "cancel-button" ⟨⟨false⟩, []⟩ ⟨⟨false⟩, []⟩ rfl).1 rfl

/-- C4 — the claim says that with no Cancel control registered the
default-focus redirection does nothing and the primitive's default
autofocus is not suppressed.  It is suppressed: the handler calls
`event.preventDefault()` unconditionally, before the optional-chained
focus call.  With no caller handler, an empty cancel slot and an
initially unprevented event, the resulting event has
`defaultPrevented = true` (while no focus call is made). -/
theorem C4_counterexample :
    (AlertDialogContent.openAutoFocus
        { ariaLabel := none, ariaLabelledBy := none, ariaDescribedBy := none,
          rest := emptyRest }
        none ⟨⟨false⟩, []⟩).event.defaultPrevented = true ∧
    (AlertDialogContent.openAutoFocus
        { ariaLabel := none, ariaLabelledBy := none, ariaDescribedBy := none,
          rest := emptyRest }
        none ⟨⟨false⟩, []⟩).focusCalls = [] := by
  exact ⟨rfl, rfl⟩

/-- C4 (amended) — with no Cancel control registered, the installed
pre-autofocus handler performs no focus call, but it still calls
`preventDefault`: when the caller handler (if any) left the event
unprevented, the result is the caller handler's state with
`defaultPrevented` set and the focus-call list unchanged, so the
primitive's own default autofocus is suppressed rather than falling
through. -/
theorem C4_amended_empty_slot_still_prevents_default
    (props : AlertDialogContentProps) (s s1 : AutoFocusState)
    (huser : runUserHandler props s = s1)
    (h : s1.event.defaultPrevented = false) :
    AlertDialogContent.openAutoFocus props none s
      = { s1 with event := { defaultPrevented := true } } := by
  subst huser
  rw [openAutoFocus_eq]
  simp [h, cancelAutoFocusHandler]

/-- C4 (amended) witness — with no caller handler and an empty cancel
slot, the handler leaves the focus-call list empty and sets
`defaultPrevented`. -/
theorem C4_amended_witness :
    AlertDialogContent.openAutoFocus
        { ariaLabel := none, ariaLabelledBy := none, ariaDescribedBy := none,
          rest := emptyRest }
        none ⟨⟨false⟩, []⟩
      = ⟨⟨true⟩, []⟩ :=
  C4_amended_empty_slot_still_prevents_default
    { ariaLabel := none, ariaLabelledBy := none, ariaDescribedBy := none,
      rest := emptyRest }
    ⟨⟨false⟩, []⟩ ⟨⟨false⟩, []⟩ rfl rfl

/-- A direct child of the `DialogPrimitive.Content` element rendered by
`AlertDialogContent` (source lines 86–103): the dev-warning
sub-component (mounted behind the `process.env.NODE_ENV ===
'development'` guard) and the `Slottable`-wrapped consumer children,
both inside the content provider. -/
inductive ContentChild where
  | devWarnings (ariaLabel ariaLabelledBy ariaDescribedBy : Option String)
  | slottableChildren

/-- The children `AlertDialogContent` renders inside the primitive's
content region, as a function of the build mode (`process.env.NODE_ENV`):
`{process.env.NODE_ENV === 'development' && <AccessibilityDevWarnings … />}`
followed by `<Slottable>{children}</Slottable>`. -/
def AlertDialogContent.children (nodeEnv : String)
    (props : AlertDialogContentProps) : List ContentChild :=
  (if nodeEnv == "development"
    then [ContentChild.devWarnings props.ariaLabel props.ariaLabelledBy
            props.ariaDescribedBy]
    else [])
  ++ [ContentChild.slottableChildren]

/-- Content props with nothing supplied, used for concrete evaluations. -/
def props0 : AlertDialogContentProps :=
  { ariaLabel := none, ariaLabelledBy := none, ariaDescribedBy := none,
    rest := emptyRest }

/-- C3 — the claim says `AccessibilityDevWarnings` is mounted in every
non-production build.  The source guards it with
`process.env.NODE_ENV === 'development'`: in a `"test"` build — which is
not a production build — the sub-component is not mounted (the children
are only the `Slottable` slot). -/
theorem C3_counterexample :
    ("test" = "production" → False) ∧
    AlertDialogContent.children "test" props0
      = [ContentChild.slottableChildren] := by
  exact ⟨by decide, rfl⟩

/-- C3 (amended) — `AccessibilityDevWarnings` is mounted inside
`AlertDialogContent` exactly when the build mode is `"development"` (so
in particular never in production builds, but also not in other
non-production modes such as `"test"`), and it is mounted as a sibling
alongside the `Slottable` children slot, which is present in every build
mode. -/
theorem C3_amended_devwarnings_iff_development
    (nodeEnv : String) (props : AlertDialogContentProps) :
    ((∃ al alb adb, ContentChild.devWarnings al alb adb
        ∈ AlertDialogContent.children nodeEnv props) ↔
      nodeEnv = "development") ∧
    ContentChild.slottableChildren
      ∈ AlertDialogContent.children nodeEnv props := by
  by_cases h : nodeEnv = "development" <;>
    simp [AlertDialogContent.children, h]

/-- Whether a list of characters begins with a pattern. -/
def startsWithChars : List Char → List Char → Bool
  | _, [] => true
  | [], _ :: _ => false
  | c :: cs, p :: ps => c == p && startsWithChars cs ps

/-- Whether a pattern occurs contiguously somewhere in a list of
characters. -/
def hasInfixChars (pat : List Char) : List Char → Bool
  | [] => startsWithChars [] pat
  | c :: cs => startsWithChars (c :: cs) pat || hasInfixChars pat cs

/-- Whether the string `sub` occurs as a substring of `s`. -/
def mentions (s sub : String) : Bool :=
  hasInfixChars sub.data s.data

/-- Component display name used inside the warning texts. -/
def CONTENT_NAME : String := "AlertDialogContent"

/-- Component display name used inside the warning texts. -/
def TITLE_NAME : String := "AlertDialogTitle"

/-- Component display name used inside the warning texts. -/
def DESCRIPTION_NAME : String := "AlertDialogDescription"

/-- The missing-label warning text (source lines 191–197). -/
def LABEL_WARNING : String :=
  CONTENT_NAME ++ " requires a label for the component to be accessible for screen reader users.\n\nYou can label the " ++ CONTENT_NAME ++ " by passing a " ++ TITLE_NAME ++ " component as a child, which also benefits sighted users by adding visible context to the dialog.\n\nAlternatively, you can use your own component as a title by assigning it an `id` and passing the same value to the `aria-labelledby` prop in " ++ CONTENT_NAME ++ ". If the label is confusing or duplicative for sighted users, you can also pass a label directly by using the `aria-label` prop.\n\nFor more information, see https://LINK-TO-DOCS.com"

/-- The missing-description warning text (source lines 199–205). -/
def DESC_WARNING : String :=
  CONTENT_NAME ++ " requires a description for the component to be accessible for screen reader users.\n\nYou can add a description to the " ++ CONTENT_NAME ++ " by passing a " ++ DESCRIPTION_NAME ++ " component as a child, which also benefits sighted users by adding visible context to the dialog.\n\nAlternatively, you can use your own component as a description by assigning it an `id` and passing the same value to the `aria-describedby` prop in " ++ CONTENT_NAME ++ ". If the description is confusing or duplicative for sighted users, you can use the `@radix-ui/react-visually-hidden` primitive as a wrapper around your description component.\n\nFor more information, see https://LINK-TO-DOCS.com"

/-- JS `x && document.getElementById(x)` coerced to a boolean, for an
optional string `x`: true exactly when `x` is a truthy id that resolves
to a rendered element.  `dom` models `document.getElementById` (true =
an element with that id is rendered). -/
def optTruthyAndResolves (x : Option String) (dom : String → Bool) : Bool :=
  match x with
  | some s => !(s == "") && dom s
  | none => false

/-- The `hasLabel` check of `AccessibilityDevWarnings` (source lines
222–226): `Boolean(ariaLabel || (ariaLabelledBy &&
document.getElementById(ariaLabelledBy)) || (context.titleId &&
document.getElementById(context.titleId)))`. -/
def hasLabelCheck (dom : String → Bool) (ctx : AlertDialogContextValue)
    (ariaLabel ariaLabelledBy : Option String) : Bool :=
  strTruthy ariaLabel || optTruthyAndResolves ariaLabelledBy dom ||
    (!(ctx.titleId == "") && dom ctx.titleId)

/-- The `hasDescription` check of `AccessibilityDevWarnings` (source
lines 231–234): `Boolean((ariaDescribedBy &&
document.getElementById(ariaDescribedBy)) || (context.descriptionId &&
document.getElementById(context.descriptionId)))`. -/
def hasDescriptionCheck (dom : String → Bool)
    (ctx : AlertDialogContextValue) (ariaDescribedBy : Option String) : Bool :=
  optTruthyAndResolves ariaDescribedBy dom ||
    (!(ctx.descriptionId == "") && dom ctx.descriptionId)

/-- The warnings emitted by one run of the `AccessibilityDevWarnings`
effect (source lines 221–238): `console.warn(LABEL_WARNING)` when
`hasLabel` fails, then `console.warn(DESC_WARNING)` when
`hasDescription` fails.  The effect renders nothing and is a total
function of its inputs (it cannot throw). -/
def AccessibilityDevWarnings.effectWarnings (dom : String → Bool)
    (ctx : AlertDialogContextValue)
    (ariaLabel ariaLabelledBy ariaDescribedBy : Option String) :
    List String :=
  (if hasLabelCheck dom ctx ariaLabel ariaLabelledBy then []
   else [LABEL_WARNING]) ++
  (if hasDescriptionCheck dom ctx ariaDescribedBy then []
   else [DESC_WARNING])

set_option maxRecDepth 8192 in
theorem label_warning_mentions_label : mentions LABEL_WARNING "label" = true := by
  decide

set_option maxRecDepth 8192 in
theorem desc_warning_no_label : mentions DESC_WARNING "label" = false := by
  decide

set_option maxRecDepth 8192 in
theorem desc_warning_mentions_description :
    mentions DESC_WARNING "description" = true := by
  decide

set_option maxRecDepth 8192 in
theorem label_warning_no_description :
    mentions LABEL_WARNING "description" = false := by
  decide

/-- C6 — behavior of one run of the `AccessibilityDevWarnings` check (the
check is a total function of its inputs, so it never throws): (1) when no
accessible name resolves — no truthy explicit `ariaLabel`, no
`ariaLabelledBy` id resolving to a rendered element, and the title id not
resolving to a rendered element — exactly one of the emitted warnings
mentions "label"; (2) when no description resolves — neither
`ariaDescribedBy` nor the description id resolving to a rendered
element — exactly one of the emitted warnings mentions "description";
(3) when both a name and a description resolve, no warning is emitted. -/
theorem C6_dev_warning_check (dom : String → Bool)
    (ctx : AlertDialogContextValue) (al alb adb : Option String) :
    (strTruthy al = false →
      (∀ s, alb = some s → dom s = false) →
      dom ctx.titleId = false →
      ((AccessibilityDevWarnings.effectWarnings dom ctx al alb adb).filter
          (fun w => mentions w "label")).length = 1) ∧
    ((∀ s, adb = some s → dom s = false) →
      dom ctx.descriptionId = false →
      ((AccessibilityDevWarnings.effectWarnings dom ctx al alb adb).filter
          (fun w => mentions w "description")).length = 1) ∧
    ((strTruthy al = true ∨
        (∃ s, alb = some s ∧ s ≠ "" ∧ dom s = true) ∨
        (ctx.titleId ≠ "" ∧ dom ctx.titleId = true)) →
      ((∃ s, adb = some s ∧ s ≠ "" ∧ dom s = true) ∨
        (ctx.descriptionId ≠ "" ∧ dom ctx.descriptionId = true)) →
      AccessibilityDevWarnings.effectWarnings dom ctx al alb adb = []) := by
  refine ⟨?_, ?_, ?_⟩
  · intro h1 h2 h3
    have hl : hasLabelCheck dom ctx al alb = false := by
      unfold hasLabelCheck optTruthyAndResolves
      cases halb : alb with
      | none => simp [h1, h3]
      | some s => simp [h1, h3, h2 s halb]
    cases hd : hasDescriptionCheck dom ctx adb <;>
      simp [AccessibilityDevWarnings.effectWarnings, hl, hd, List.filter,
        label_warning_mentions_label, desc_warning_no_label]
  · intro h1 h2
    have hd : hasDescriptionCheck dom ctx adb = false := by
      unfold hasDescriptionCheck optTruthyAndResolves
      cases hadb : adb with
      | none => simp [h2]
      | some s => simp [h2, h1 s hadb]
    cases hl : hasLabelCheck dom ctx al alb <;>
      simp [AccessibilityDevWarnings.effectWarnings, hl, hd, List.filter,
        desc_warning_mentions_description, label_warning_no_description]
  · intro h1 h2
    have hl : hasLabelCheck dom ctx al alb = true := by
      rcases h1 with h | ⟨s, hs, hne, hdom⟩ | ⟨hne, hdom⟩
      · simp [hasLabelCheck, h]
      · simp [hasLabelCheck, optTruthyAndResolves, hs, hne, hdom]
      · simp [hasLabelCheck, hne, hdom]
    have hd : hasDescriptionCheck dom ctx adb = true := by
      rcases h2 with ⟨s, hs, hne, hdom⟩ | ⟨hne, hdom⟩
      · simp [hasDescriptionCheck, optTruthyAndResolves, hs, hne, hdom]
      · simp [hasDescriptionCheck, hne, hdom]
    simp [AccessibilityDevWarnings.effectWarnings, hl, hd]

/-- C6 witness — with an empty rendered DOM, a concrete identity context
and no overrides, the effect emits exactly one warning mentioning
"label" and exactly one mentioning "description". -/
theorem C6_witness :
    ((AccessibilityDevWarnings.effectWarnings (fun _ => false) ctx0
        none none none).filter (fun w => mentions w "label")).length = 1 ∧
    ((AccessibilityDevWarnings.effectWarnings (fun _ => false) ctx0
        none none none).filter (fun w => mentions w "description")).length
      = 1 :=
  ⟨(C6_dev_warning_check (fun _ => false) ctx0 none none none).1 rfl
      (fun _ h => Option.noConfusion h) rfl,
   (C6_dev_warning_check (fun _ => false) ctx0 none none none).2.1
      (fun _ h => Option.noConfusion h) rfl⟩

/-- Decimal digit rendered as a character (for digits 0–9). -/
def digitToChar (d : Nat) : Char := Char.ofNat (48 + d)

/-- Modelled from the spec: the external unique-id utility (`useId` from
`@radix-ui/react-id`, which is not under `src/`).  The spec requires "a
stable per-mount unique-id mechanism (not random per render — must
remain constant across re-renders of the same mounted instance)": ids
are drawn from a module-level counter and rendered as a
`"radix-"`-prefixed decimal numeral. -/
def mkRadixId (n : Nat) : String :=
  "radix-" ++ String.mk (((Nat.digits 10 n).map digitToChar).reverse)

/-- Modelled from the spec: one `useId()` hook call of a mounted
instance.  On the first render the hook slot is empty, a fresh id is
drawn from the counter and stored in the slot; on every re-render the
stored id is returned unchanged. -/
def useId (slot : Option String) (counter : Nat) :
    String × Option String × Nat :=
  match slot with
  | some id => (id, some id, counter)
  | none => (mkRadixId counter, some (mkRadixId counter), counter + 1)

/-- One render of the root composer `AlertDialog` (source lines 27–31):
`<AlertDialogProvider descriptionId={useId()} titleId={useId()}>`.  It
takes the mounted instance's two hook slots and the global counter and
returns the published identity context together with the updated slots
and counter. -/
def AlertDialog.render (descSlot titleSlot : Option String)
    (counter : Nat) :
    AlertDialogContextValue × (Option String × Option String) × Nat :=
  let d := useId descSlot counter
  let t := useId titleSlot d.2.2
  ({ descriptionId := d.1, titleId := t.1 }, (d.2.1, t.2.1), t.2.2)

theorem digitToChar_inj :
    ∀ a, a < 10 → ∀ b, b < 10 → digitToChar a = digitToChar b → a = b := by
  decide

theorem map_digitToChar_inj :
    ∀ l1 l2 : List Nat, (∀ d ∈ l1, d < 10) → (∀ d ∈ l2, d < 10) →
      l1.map digitToChar = l2.map digitToChar → l1 = l2 := by
  intro l1
  induction l1 with
  | nil =>
    intro l2 _ _ h
    cases l2 with
    | nil => rfl
    | cons b bs => simp at h
  | cons a as ih =>
    intro l2 h1 h2 h
    cases l2 with
    | nil => simp at h
    | cons b bs =>
      simp only [List.map_cons, List.cons.injEq] at h
      have hab : a = b :=
        digitToChar_inj a (h1 a (by simp)) b (h2 b (by simp)) h.1
      have htail := ih bs (fun d hd => h1 d (by simp [hd]))
        (fun d hd => h2 d (by simp [hd])) h.2
      simp [hab, htail]

theorem mkRadixId_inj (m n : Nat) (h : mkRadixId m = mkRadixId n) :
    m = n := by
  have hdata := congrArg String.data h
  simp only [mkRadixId, String.data_append] at hdata
  have hrev := List.append_cancel_left hdata
  have hmap := List.reverse_injective hrev
  have hdig := map_digitToChar_inj _ _
    (fun d hd => Nat.digits_lt_base (by norm_num) hd)
    (fun d hd => Nat.digits_lt_base (by norm_num) hd) hmap
  have := congrArg (Nat.ofDigits 10) hdig
  rwa [Nat.ofDigits_digits, Nat.ofDigits_digits] at this

theorem mkRadixId_ne_empty (n : Nat) : mkRadixId n ≠ "" := by
  intro h
  have hdata := congrArg String.data h
  simp [mkRadixId, String.data_append] at hdata

/-- C8 — for every mount of the root composer, the generated
`descriptionId` and `titleId` are non-empty strings, distinct from one
another, and every re-render of the same mounted instance (with any
later counter value) publishes exactly the same context. -/
theorem C8_ids_nonempty_stable_distinct (c : Nat) :
    (AlertDialog.render none none c).1.titleId ≠ "" ∧
    (AlertDialog.render none none c).1.descriptionId ≠ "" ∧
    (AlertDialog.render none none c).1.titleId
      ≠ (AlertDialog.render none none c).1.descriptionId ∧
    (∀ c2 : Nat,
      (AlertDialog.render (AlertDialog.render none none c).2.1.1
          (AlertDialog.render none none c).2.1.2 c2).1
        = (AlertDialog.render none none c).1) := by
  refine ⟨mkRadixId_ne_empty (c + 1), mkRadixId_ne_empty c, ?_, ?_⟩
  · intro h
    exact Nat.succ_ne_self c (mkRadixId_inj (c + 1) c h)
  · intro c2
    rfl

/-- Default tag rendered by `AlertDialogTitle` (source line 119). -/
def TITLE_DEFAULT_TAG : String := "h2"

/-- Default tag rendered by `AlertDialogDescription` (source line 140). -/
def DESCRIPTION_DEFAULT_TAG : String := "p"

/-- Props accepted by the `Primitive`-based leaves `AlertDialogTitle`
and `AlertDialogDescription`: the polymorphic `as` tag override, a
possible consumer-supplied `id`, and arbitrary further passed-through
attributes. -/
structure PrimitiveLeafProps where
  as : Option String
  id : Option String
  other : List (String × String)
deriving DecidableEq

/-- The element a `Primitive`-based leaf renders: its tag, its `id`
attribute, and the remaining attributes. -/
structure RenderedElement where
  tag : String
  id : Option String
  other : List (String × String)
deriving DecidableEq

/-- Render of `AlertDialogTitle` (source lines 127–131):
`const { as = TITLE_DEFAULT_TAG, ...titleProps } = props` followed by
`<Primitive id={titleId} {...titleProps} as={as} ref={forwardedRef} />`.
JSX semantics: `id={titleId}` is written before the `{...titleProps}`
spread, so a consumer-supplied `id` in the rest props overrides the
generated one. -/
def AlertDialogTitle.render (ctx : AlertDialogContextValue)
    (props : PrimitiveLeafProps) : RenderedElement :=
  { tag :=
      match props.as with
      | some t => t
      | none => TITLE_DEFAULT_TAG
    id :=
      match props.id with
      | some i => some i
      | none => some ctx.titleId
    other := props.other }

/-- Render of `AlertDialogDescription` (source lines 148–152):
`const { as = DESCRIPTION_DEFAULT_TAG, ...descriptionProps } = props`
followed by `<Primitive id={descriptionId} {...descriptionProps}
as={as} ref={forwardedRef} />`, with the same spread-override order as
the title. -/
def AlertDialogDescription.render (ctx : AlertDialogContextValue)
    (props : PrimitiveLeafProps) : RenderedElement :=
  { tag :=
      match props.as with
      | some t => t
      | none => DESCRIPTION_DEFAULT_TAG
    id :=
      match props.id with
      | some i => some i
      | none => some ctx.descriptionId
    other := props.other }

/-- Leaf props with nothing supplied, used for concrete evaluations. -/
def leaf0 : PrimitiveLeafProps := { as := none, id := none, other := [] }

/-- C9 — for renders of `AlertDialogTitle` and `AlertDialogDescription`
inside a mounted `AlertDialog` in which the consumer supplies no
explicit `id`: the rendered `id` equals the shared `titleId`
(respectively `descriptionId`); the default tag is `"h2"` for the title
and `"p"` for the description, each overridable through the `as` prop;
all other supplied props are passed through; and, when `Content` is
rendered with no `aria-*` overrides, its `aria-labelledby` equals the
title's `id` and its `aria-describedby` equals the description's
`id`. -/
theorem C9_leaf_ids_and_linkage (ctx : AlertDialogContextValue)
    (tprops dprops : PrimitiveLeafProps) (cprops : AlertDialogContentProps)
    (hti : tprops.id = none) (hdi : dprops.id = none)
    (hcl : cprops.ariaLabel = none) (hclb : cprops.ariaLabelledBy = none)
    (hcdb : cprops.ariaDescribedBy = none) :
    (AlertDialogTitle.render ctx tprops).id = some ctx.titleId ∧
    (AlertDialogDescription.render ctx dprops).id
      = some ctx.descriptionId ∧
    (tprops.as = none → (AlertDialogTitle.render ctx tprops).tag = "h2") ∧
    (∀ t, tprops.as = some t →
      (AlertDialogTitle.render ctx tprops).tag = t) ∧
    (dprops.as = none →
      (AlertDialogDescription.render ctx dprops).tag = "p") ∧
    (∀ t, dprops.as = some t →
      (AlertDialogDescription.render ctx dprops).tag = t) ∧
    (AlertDialogTitle.render ctx tprops).other = tprops.other ∧
    (AlertDialogDescription.render ctx dprops).other = dprops.other ∧
    (AlertDialogContent.attrs ctx cprops).ariaLabelledBy
      = (AlertDialogTitle.render ctx tprops).id ∧
    (AlertDialogContent.attrs ctx cprops).ariaDescribedBy
      = (AlertDialogDescription.render ctx dprops).id := by
  refine ⟨?_, ?_, ?_, ?_, ?_, ?_, rfl, rfl, ?_, ?_⟩
  · simp [AlertDialogTitle.render, hti]
  · simp [AlertDialogDescription.render, hdi]
  · intro h; simp [AlertDialogTitle.render, TITLE_DEFAULT_TAG, h]
  · intro t h; simp [AlertDialogTitle.render, h]
  · intro h
    simp [AlertDialogDescription.render, DESCRIPTION_DEFAULT_TAG, h]
  · intro t h; simp [AlertDialogDescription.render, h]
  · simp [AlertDialogContent.attrs, AlertDialogTitle.render, jsOrStr,
      strTruthy, hti, hcl, hclb]
  · simp [AlertDialogContent.attrs, AlertDialogDescription.render, jsOrStr,
      hdi, hcdb]

/-- C9 witness — at a concrete context with no overrides anywhere, the
content's `aria-labelledby` is the title's rendered `id` and its
`aria-describedby` is the description's rendered `id`. -/
theorem C9_witness :
    (AlertDialogContent.attrs ctx0 props0).ariaLabelledBy
      = (AlertDialogTitle.render ctx0 leaf0).id ∧
    (AlertDialogContent.attrs ctx0 props0).ariaDescribedBy
      = (AlertDialogDescription.render ctx0 leaf0).id :=
  ⟨(C9_leaf_ids_and_linkage ctx0 leaf0 leaf0 props0 rfl rfl rfl rfl
      rfl).2.2.2.2.2.2.2.2.1,
   (C9_leaf_ids_and_linkage ctx0 leaf0 leaf0 props0 rfl rfl rfl rfl
      rfl).2.2.2.2.2.2.2.2.2⟩

/-- C10 — when the consumer supplies an explicit `id` prop to
`AlertDialogTitle` or `AlertDialogDescription`, the consumer's `id`
overrides the context-generated one on the rendered element (the spread
is written after the generated `id`), and consequently the automatic
linkage from a no-override `Content` breaks whenever that `id` differs
from the generated one. -/
theorem C10_consumer_id_overrides_generated
    (ctx : AlertDialogContextValue) (props : PrimitiveLeafProps)
    (i : String) (hid : props.id = some i) :
    (AlertDialogTitle.render ctx props).id = some i ∧
    (AlertDialogDescription.render ctx props).id = some i ∧
    (i ≠ ctx.titleId →
      (AlertDialogTitle.render ctx props).id
        ≠ (AlertDialogContent.attrs ctx
            { ariaLabel := none, ariaLabelledBy := none,
              ariaDescribedBy := none, rest := emptyRest }).ariaLabelledBy) ∧
    (i ≠ ctx.descriptionId →
      (AlertDialogDescription.render ctx props).id
        ≠ (AlertDialogContent.attrs ctx
            { ariaLabel := none, ariaLabelledBy := none,
              ariaDescribedBy := none, rest := emptyRest }).ariaDescribedBy) := by
  refine ⟨?_, ?_, ?_, ?_⟩
  · simp [AlertDialogTitle.render, hid]
  · simp [AlertDialogDescription.render, hid]
  · intro hne
    simp [AlertDialogTitle.render, AlertDialogContent.attrs, jsOrStr,
      strTruthy, hid, hne]
  · intro hne
    simp [AlertDialogDescription.render, AlertDialogContent.attrs, jsOrStr,
      hid, hne]

/-- C10 witness — a consumer `id="custom"` ends up on the rendered title
element in place of the generated `titleId`. -/
theorem C10_witness :
    (AlertDialogTitle.render ctx0
        { as := none, id := some "custom", other := [] }).id
      = some "custom" :=
  (C10_consumer_id_overrides_generated ctx0
      { as := none, id := some "custom", other := [] } "custom" rfl).1
